import Mathlib

/-!
Verification of the PDF viewer core (`src/main.py`, class `PDFViewer`).

The mutable viewer state (the attributes set in `__init__`) is embedded as a
record, and each method that the claims mention becomes a pure state
transformer.  Python floats are idealized as exact rationals (`ℚ`); machine
pixel dimensions and page indices are `Int`/`Nat`.  The external PyMuPDF
document is an opaque handle carrying only its page count; `fitz.open` is a
collaborator modelled by an `Option Doc` outcome (`none` = the call raised,
surfaced as `DocumentOpenError`).

Python truthiness of `self.doc` (`if not self.doc`, `self.doc and ...`):
`fitz.Document` exposes `__len__` (the page count, used at line 185 as
`len(self.doc)`), so a document with zero pages is falsy, and `None` is
falsy.  `docTruthy` captures exactly that.
-/

/-- Opaque handle to an opened PDF: only its page count is observable
(`len(doc)`, line 185 of `main.py`). -/
structure Doc where
  pageCount : Nat

/-- The viewer's mutable state: the attributes of `PDFViewer` set in
`__init__` (lines 30-44) that the modelled methods read or write.
`docClosed` records whether `close()` has been called on the currently held
handle (a closed handle is unusable for rendering). -/
structure ViewerState where
  doc : Option Doc
  docClosed : Bool
  page_count : Nat
  page_index : Int
  zoom : ℚ
  fit_mode : Bool
  dual_page_mode : Bool
  is_animating : Bool
  animation_direction : Int
  animation_progress : ℚ
  target_page_index : Int

/-- The state after `__init__` (lines 30-44): no document, page 0, zoom 1.0,
fit mode on, single-page mode, no animation. -/
def initState : ViewerState :=
  { doc := none
    docClosed := false
    page_count := 0
    page_index := 0
    zoom := 1
    fit_mode := true
    dual_page_mode := false
    is_animating := false
    animation_direction := 1
    animation_progress := 0
    target_page_index := 0 }

/-- Python truthiness of `self.doc`: `None` is falsy, and a `fitz.Document`
is falsy iff `len(doc) == 0` (Document implements `__len__`). -/
def docTruthy (s : ViewerState) : Bool :=
  match s.doc with
  | none => false
  | some d => d.pageCount != 0

/-- `sorted((a, b, c))[1]`: the median of three rationals, as used by the
clamping idiom at lines 303, 308 and 361 of `main.py`. -/
def med3 (a b c : ℚ) : ℚ :=
  max (min a b) (min (max a b) c)

/-- `sorted((a, b, c))[1]` on integers, as used at line 286 of `main.py`. -/
def med3Int (a b c : Int) : Int :=
  max (min a b) (min (max a b) c)

/-- Python `int()` on a float: truncation toward zero. -/
def pyInt (q : ℚ) : Int :=
  if q < 0 then ⌈q⌉ else ⌊q⌋

/-- `_load` (lines 181-202).  Line 182 closes the previous document first
(when truthy); line 183 calls `fitz.open`, whose outcome is the
`openResult` parameter (`none` = the open raised).  On success the page
count, page index, zoom and fit mode are reset (lines 185-188);
`dual_page_mode` is not touched.  The returned `Bool` is `true` iff the
call raised (`DocumentOpenError` propagates to the caller with the state
as mutated so far). -/
def _load (openResult : Option Doc) (s : ViewerState) : ViewerState × Bool :=
  let s1 := if docTruthy s = true then { s with docClosed := true } else s
  match openResult with
  | none => (s1, true)
  | some d =>
      ({ s1 with
          doc := some d
          docClosed := false
          page_count := d.pageCount
          page_index := 0
          zoom := 1
          fit_mode := true }, false)

/-- `_set_page` (lines 288-291): stores the index (the UI/render calls have
no effect on the modelled state). -/
def _set_page (s : ViewerState) (idx : Int) : ViewerState :=
  { s with page_index := idx }

/-- `_go` (lines 284-286), the instant `jumpTo` path:
`self.doc and self._set_page(sorted((0, index, self.page_count - 1))[1])`. -/
def _go (s : ViewerState) (index : Int) : ViewerState :=
  if docTruthy s = true then
    _set_page s (med3Int 0 index ((s.page_count : Int) - 1))
  else s

/-- `_on_scale` (lines 321-324), the slider path:
`self._block_scale_callback or (self._go(int(float(v)) - 1),)`. -/
def _on_scale (s : ViewerState) (blocked : Bool) (v : ℚ) : ViewerState :=
  if blocked = true then s else _go s (pyInt v - 1)

/-- The dual-page index adjustment of `_go_animated` (lines 217-220): clamp
to `[0, page_count - 1]`, then subtract 1 when the clamped index is odd. -/
def dualAlignIndex (pageCount : Nat) (index : Int) : Int :=
  if max 0 (min ((pageCount : Int) - 1) index) % 2 ≠ 0 then
    max 0 (min ((pageCount : Int) - 1) index) - 1
  else
    max 0 (min ((pageCount : Int) - 1) index)

/-- One animation tick, `_animate_flip` (lines 236-248): advance progress by
`0.15` clamped at `1.0`, render a flip frame (no state effect), and when
progress has reached `1.0` store the target index and stop animating
(otherwise line 248 schedules the next tick 30 ms later). -/
def _animate_flip_step (s : ViewerState) : ViewerState :=
  if 1 ≤ min 1 (s.animation_progress + 3/20) then
    { s with
        animation_progress := min 1 (s.animation_progress + 3/20)
        page_index := s.target_page_index
        is_animating := false }
  else
    { s with animation_progress := min 1 (s.animation_progress + 3/20) }

/-- `_start_flip_animation` (lines 226-234): no-op when the target equals
the current index; otherwise record the transition and run the first tick
synchronously (line 234 calls `_animate_flip`). -/
def _start_flip_animation (s : ViewerState) (target_idx direction : Int) : ViewerState :=
  if target_idx = s.page_index then s
  else
    _animate_flip_step
      { s with
          is_animating := true
          animation_direction := direction
          animation_progress := 0
          target_page_index := target_idx }

/-- `_go_animated` (lines 211-224): ignore the request when no truthy
document is open or an animation is running; clamp the index (and in dual
mode round it down to even); delegate to `_start_flip_animation`. -/
def _go_animated (s : ViewerState) (index direction : Int) : ViewerState :=
  if ¬(docTruthy s = true) ∨ s.is_animating = true then s
  else if s.dual_page_mode = true then
    _start_flip_animation s (dualAlignIndex s.page_count index) direction
  else
    _start_flip_animation s (max 0 (min ((s.page_count : Int) - 1) index)) direction

/-- `_zoom_in` (lines 301-304): `fit_mode := False`;
`zoom := sorted((0.2, zoom * 1.25, 6.0))[1]`. -/
def _zoom_in (s : ViewerState) : ViewerState :=
  { s with fit_mode := false, zoom := med3 (1/5) (s.zoom * (5/4)) 6 }

/-- `_zoom_out` (lines 306-309): `fit_mode := False`;
`zoom := sorted((0.2, zoom / 1.25, 6.0))[1]`. -/
def _zoom_out (s : ViewerState) : ViewerState :=
  { s with fit_mode := false, zoom := med3 (1/5) (s.zoom / (5/4)) 6 }

/-- `_toggle_fit` (lines 311-313). -/
def _toggle_fit (s : ViewerState) : ViewerState :=
  { s with fit_mode := !s.fit_mode }

/-- `_toggle_dual_page` (lines 315-319). -/
def _toggle_dual_page (s : ViewerState) : ViewerState :=
  { s with dual_page_mode := !s.dual_page_mode }

/-- The page list of `_render_pages` (line 336): the current page alone, or
the pair `[index, index + 1]` in dual mode when a neighbour exists. -/
def pages_to_render (s : ViewerState) : List Int :=
  if ¬(s.dual_page_mode = true) ∨ (s.page_count : Int) ≤ s.page_index + 1 then
    [s.page_index]
  else
    [s.page_index, s.page_index + 1]

/-- `_render` (lines 328-329): `self.doc and self._render_pages()`.  We model
the observable effect as the list of page indices handed to the rasterizer
(`none` when the guard short-circuits and nothing is rasterized). -/
def _render (s : ViewerState) : Option (List Int) :=
  if docTruthy s = true then some (pages_to_render s) else none

/-- The flip-frame horizontal scale (lines 255-257):
`scale_x = max(0.1, abs((1.0 - progress) if direction > 0 else progress))`. -/
def flip_scale_x (direction : Int) (progress : ℚ) : ℚ :=
  max (1/10) |if 0 < direction then 1 - progress else progress|

/-- The page index rasterized for a flip frame (line 260): the source page
while `progress < 0.5`, the target page once `progress >= 0.5`. -/
def flip_render_idx (s : ViewerState) : Int :=
  if s.animation_progress < 1/2 then s.page_index else s.target_page_index

/-- The resized width of the flip frame (line 269):
`new_width = max(1, int(combined.width * scale_x))`. -/
def flip_new_width (w : Nat) (scaleX : ℚ) : Int :=
  max 1 (pyInt ((w : ℚ) * scaleX))

/-- The scale resolved by `_get_page_image` (lines 348-365) before
rasterizing one page: available canvas size floored at 1 (`self.pad = 12`,
lines 353-354), width halved in dual mode with a visible neighbour
(line 357), fit scale or manual zoom (lines 359-360), clamped by the
median idiom (line 361). -/
def _get_page_image_scale (s : ViewerState) (canvas_w canvas_h : Int)
    (page_w page_h : ℚ) : ℚ :=
  let cw : Int := max 1 (canvas_w - 12 * 2)
  let ch : Int := max 1 (canvas_h - 12 * 2)
  let effective_cw : Int :=
    if s.dual_page_mode = true ∧ s.page_index + 1 < (s.page_count : Int) then cw / 2
    else cw
  let fit_scale : ℚ := min ((effective_cw : ℚ) / page_w) ((ch : ℚ) / page_h)
  let scale : ℚ := if s.fit_mode = true then fit_scale else s.zoom
  med3 (1/5) scale 8

/-- Modelled from the spec's words (§4.1 ScaleResolver): scale =
`min(availableWidth / pageWidth, availableHeight / pageHeight)` when
`fitMode`, else the manual zoom; `availableWidth` is the viewport minus
padding (floored at 1), halved when rendering one slot of a dual-page
spread that has two visible pages; result clamped to `[0.2, 8.0]`. -/
def scaleResolver_spec (viewportW viewportH : Int) (pageW pageH manualZoom : ℚ)
    (fitMode dualTwoVisible : Bool) : ℚ :=
  let availW : Int :=
    if dualTwoVisible = true then (max 1 (viewportW - 24)) / 2 else max 1 (viewportW - 24)
  let availH : Int := max 1 (viewportH - 24)
  let raw : ℚ :=
    if fitMode = true then min ((availW : ℚ) / pageW) ((availH : ℚ) / pageH)
    else manualZoom
  max (1/5) (min raw 8)

/-! ## Helper lemmas -/

/-- Concrete states used to instantiate hypothesis-bearing theorems. -/
def sampleAnimState : ViewerState :=
  { initState with
      doc := some (Doc.mk 10)
      page_count := 10
      page_index := 2
      is_animating := true
      animation_progress := 0
      target_page_index := 5 }

def sampleDualState : ViewerState :=
  { initState with
      doc := some (Doc.mk 10)
      page_count := 10
      dual_page_mode := true }

def sampleRunningState : ViewerState :=
  { initState with
      doc := some (Doc.mk 10)
      page_count := 10
      is_animating := true
      target_page_index := 5 }

def sampleFlipState : ViewerState :=
  { initState with
      doc := some (Doc.mk 10)
      page_count := 10
      page_index := 2
      is_animating := true
      animation_progress := 3/20
      target_page_index := 5 }

/-- The state after successfully opening a zero-page document. -/
def sampleEmptyState : ViewerState := (_load (some (Doc.mk 0)) initState).1

/-- The state after successfully opening a five-page document. -/
def sampleLoadedState : ViewerState := (_load (some (Doc.mk 5)) initState).1

def sampleZoom2 : ViewerState := { initState with zoom := 2 }

def sampleZoom5 : ViewerState := { initState with zoom := 5 }

/-- The median of three with ordered outer bounds is the two-sided clamp. -/
lemma med3_clamp (a b c : ℚ) (hac : a ≤ c) : med3 a b c = max a (min b c) := by
  unfold med3
  simp only [min_def, max_def]
  split_ifs <;> linarith

lemma med3Int_clamp (a b c : Int) (hac : a ≤ c) :
    med3Int a b c = max a (min b c) := by
  unfold med3Int
  simp only [min_def, max_def]
  split_ifs <;> omega

/-- The median clamp keeps its value between the ordered outer bounds. -/
lemma med3_le_bounds (a b c : ℚ) (hac : a ≤ c) :
    a ≤ med3 a b c ∧ med3 a b c ≤ c := by
  rw [med3_clamp a b c hac]
  exact ⟨le_max_left _ _, max_le hac (min_le_right _ _)⟩

/-- A tick never alters the transition target. -/
lemma tick_target (s : ViewerState) :
    (_animate_flip_step s).target_page_index = s.target_page_index := by
  unfold _animate_flip_step
  split <;> rfl

/-- A non-terminal tick (progress stays below 1) only advances progress. -/
lemma tick_eval (s : ViewerState) (p : ℚ) (hp : s.animation_progress = p)
    (h : p + 3/20 < 1) :
    _animate_flip_step s = { s with animation_progress := p + 3/20 } := by
  unfold _animate_flip_step
  rw [hp, min_eq_right (le_of_lt h), if_neg (not_le.mpr h)]

/-- A terminal tick clamps progress to 1, stores the target and stops. -/
lemma tick_eval_done (s : ViewerState) (p : ℚ) (hp : s.animation_progress = p)
    (h : 1 ≤ p + 3/20) :
    _animate_flip_step s =
      { s with
          animation_progress := 1
          page_index := s.target_page_index
          is_animating := false } := by
  unfold _animate_flip_step
  rw [hp, min_eq_left h, if_pos le_rfl]

/-- The dual-mode adjusted index is even and no larger than the clamped
request. -/
lemma dualAlignIndex_even (pc : Nat) (index : Int) :
    dualAlignIndex pc index % 2 = 0
    ∧ dualAlignIndex pc index ≤ max 0 (min ((pc : Int) - 1) index) := by
  unfold dualAlignIndex
  split <;> omega

/-- The flip scale factor is at least 0.1, hence nonnegative. -/
lemma flip_scale_x_nonneg (direction : Int) (progress : ℚ) :
    0 ≤ flip_scale_x direction progress := by
  unfold flip_scale_x
  have h : (0:ℚ) ≤ 1/10 := by norm_num
  exact le_trans h (le_max_left _ _)

/-- On a nonnegative product `pyInt` is the floor, so the flip width is
`max 1 ⌊w * scaleX⌋` and in particular at least one pixel. -/
lemma flip_new_width_eq (w : Nat) (scaleX : ℚ) (hs : 0 ≤ scaleX) :
    flip_new_width w scaleX = max 1 ⌊(w : ℚ) * scaleX⌋
    ∧ 1 ≤ flip_new_width w scaleX := by
  have hw : 0 ≤ (w : ℚ) * scaleX := mul_nonneg (Nat.cast_nonneg w) hs
  unfold flip_new_width pyInt
  rw [if_neg (not_lt.mpr hw)]
  exact ⟨rfl, le_max_left 1 _⟩

/-! ## Claim theorems -/

/-- C2 counterexample: open a 5-page document, go to page 2, then fail to
open another path.  The failure is reported, the state still references the
first document — but that document has already been closed by line 182, so
it is not usable for rendering, contrary to the claim. -/
theorem C2_counterexample :
    docTruthy sampleLoadedState = true
    ∧ sampleLoadedState.docClosed = false
    ∧ (_load none sampleLoadedState).2 = true
    ∧ (_load none sampleLoadedState).1.docClosed = true := by
  refine ⟨rfl, rfl, rfl, rfl⟩

/-- C2 (amended): when `openDocument` fails, the scalar view state (page
index, zoom, fit mode, dual-page flag, page count) and the held handle are
exactly as before the call, but the previously open document has already
been closed before the failing open, so it is no longer usable for
rendering. -/
theorem C2_failed_open (s : ViewerState) (h : docTruthy s = true) :
    (_load none s).2 = true
    ∧ (_load none s).1.doc = s.doc
    ∧ (_load none s).1.docClosed = true
    ∧ (_load none s).1.page_index = s.page_index
    ∧ (_load none s).1.zoom = s.zoom
    ∧ (_load none s).1.fit_mode = s.fit_mode
    ∧ (_load none s).1.dual_page_mode = s.dual_page_mode
    ∧ (_load none s).1.page_count = s.page_count := by
  simp [_load, h]

theorem C2_failed_open_witness :
    (_load none sampleLoadedState).2 = true
    ∧ (_load none sampleLoadedState).1.doc = sampleLoadedState.doc
    ∧ (_load none sampleLoadedState).1.docClosed = true
    ∧ (_load none sampleLoadedState).1.page_index = sampleLoadedState.page_index
    ∧ (_load none sampleLoadedState).1.zoom = sampleLoadedState.zoom
    ∧ (_load none sampleLoadedState).1.fit_mode = sampleLoadedState.fit_mode
    ∧ (_load none sampleLoadedState).1.dual_page_mode = sampleLoadedState.dual_page_mode
    ∧ (_load none sampleLoadedState).1.page_count = sampleLoadedState.page_count :=
  C2_failed_open sampleLoadedState rfl

/-- C3 counterexample: with dual-page mode on, a successful `openDocument`
leaves `dual_page_mode = true` — `_load` never resets it, contrary to the
claim that it is reset to false. -/
theorem C3_counterexample :
    (_toggle_dual_page initState).dual_page_mode = true
    ∧ (_load (some (Doc.mk 10)) (_toggle_dual_page initState)).2 = false
    ∧ (_load (some (Doc.mk 10)) (_toggle_dual_page initState)).1.dual_page_mode = true := by
  refine ⟨rfl, rfl, rfl⟩

/-- C3 (amended): a successful `openDocument` installs the new document and
resets page index to 0, zoom to 1.0 and fit mode to true, but leaves the
dual-page flag unchanged. -/
theorem C3_open_success (s : ViewerState) (d : Doc) :
    (_load (some d) s).2 = false
    ∧ (_load (some d) s).1.page_index = 0
    ∧ (_load (some d) s).1.zoom = 1
    ∧ (_load (some d) s).1.fit_mode = true
    ∧ (_load (some d) s).1.doc = some d
    ∧ (_load (some d) s).1.page_count = d.pageCount
    ∧ (_load (some d) s).1.dual_page_mode = s.dual_page_mode := by
  simp only [_load]
  split <;> simp

/-- C7: `zoomIn` multiplies and `zoomOut` divides the stored zoom by 1.25,
each clamped to [0.2, 6.0] and each forcing fit mode off; the roundtrip
restores the zoom exactly whenever the clamp does not engage, and when
`zoom * 1.25` exceeds 6.0 the zoom is pinned at the 6.0 boundary (the
subsequent `zoomOut` then lands at 4.8 instead of the original value). -/
theorem C7_zoom_roundtrip :
    (∀ s : ViewerState,
        (_zoom_in s).fit_mode = false
        ∧ (_zoom_in s).zoom = max (1/5) (min (s.zoom * (5/4)) 6)
        ∧ (_zoom_out s).fit_mode = false
        ∧ (_zoom_out s).zoom = max (1/5) (min (s.zoom / (5/4)) 6)
        ∧ 1/5 ≤ (_zoom_in s).zoom ∧ (_zoom_in s).zoom ≤ 6
        ∧ 1/5 ≤ (_zoom_out s).zoom ∧ (_zoom_out s).zoom ≤ 6)
    ∧ (∀ s : ViewerState, 1/5 ≤ s.zoom → s.zoom * (5/4) ≤ 6 →
        (_zoom_out (_zoom_in s)).zoom = s.zoom)
    ∧ (∀ s : ViewerState, s.zoom ≤ 6 → 6 < s.zoom * (5/4) →
        (_zoom_in s).zoom = 6 ∧ (_zoom_out (_zoom_in s)).zoom = 24/5) := by
  have hin : ∀ s : ViewerState,
      (_zoom_in s).zoom = max (1/5) (min (s.zoom * (5/4)) 6) :=
    fun s => med3_clamp _ _ _ (by norm_num)
  have hout : ∀ s : ViewerState,
      (_zoom_out s).zoom = max (1/5) (min (s.zoom / (5/4)) 6) :=
    fun s => med3_clamp _ _ _ (by norm_num)
  refine ⟨fun s => ⟨rfl, hin s, rfl, hout s, ?_, ?_, ?_, ?_⟩, ?_, ?_⟩
  · rw [hin s]; exact le_max_left _ _
  · rw [hin s]; exact max_le (by norm_num) (min_le_right _ _)
  · rw [hout s]; exact le_max_left _ _
  · rw [hout s]; exact max_le (by norm_num) (min_le_right _ _)
  · intro s h1 h2
    have e1 : (_zoom_in s).zoom = s.zoom * (5/4) := by
      rw [hin s, min_eq_left h2, max_eq_right (by linarith)]
    rw [hout (_zoom_in s), e1]
    have e3 : s.zoom * (5/4) / (5/4) = s.zoom := by ring
    rw [e3, min_eq_left (by linarith), max_eq_right h1]
  · intro s hz h
    have e1 : (_zoom_in s).zoom = 6 := by
      rw [hin s, min_eq_right (le_of_lt h)]; norm_num
    refine ⟨e1, ?_⟩
    rw [hout (_zoom_in s), e1]
    norm_num

theorem C7_zoom_roundtrip_witness :
    (_zoom_out (_zoom_in sampleZoom2)).zoom = sampleZoom2.zoom
    ∧ ((_zoom_in sampleZoom5).zoom = 6
        ∧ (_zoom_out (_zoom_in sampleZoom5)).zoom = 24/5) :=
  ⟨C7_zoom_roundtrip.2.1 sampleZoom2 (by norm_num [sampleZoom2])
      (by norm_num [sampleZoom2]),
   C7_zoom_roundtrip.2.2 sampleZoom5 (by norm_num [sampleZoom5])
      (by norm_num [sampleZoom5])⟩

set_option maxHeartbeats 1000000 in
/-- C8: the scale resolved by `_get_page_image` agrees with the spec's
ScaleResolver contract — fit mode uses `min(availW / pageW, availH / pageH)`
with the available width halved when a dual spread has two visible pages,
manual mode uses the stored zoom, and the result is clamped to [0.2, 8.0]. -/
theorem C8_scale_resolver (s : ViewerState) (canvas_w canvas_h : Int)
    (page_w page_h : ℚ) :
    _get_page_image_scale s canvas_w canvas_h page_w page_h
      = scaleResolver_spec canvas_w canvas_h page_w page_h s.zoom s.fit_mode
          (s.dual_page_mode && decide (s.page_index + 1 < (s.page_count : Int)))
    ∧ 1/5 ≤ _get_page_image_scale s canvas_w canvas_h page_w page_h
    ∧ _get_page_image_scale s canvas_w canvas_h page_w page_h ≤ 8 := by
  have hmed : ∀ x : ℚ, med3 (1/5) x 8 = max (1/5) (min x 8) :=
    fun x => med3_clamp _ _ _ (by norm_num)
  refine ⟨?_, (med3_le_bounds (1/5) _ 8 (by norm_num)).1,
    (med3_le_bounds (1/5) _ 8 (by norm_num)).2⟩
  simp only [_get_page_image_scale, scaleResolver_spec, hmed,
    Bool.and_eq_true, decide_eq_true_eq]
  norm_num

/-- C10: every flip frame is resized to width
`max(1, int(width * scale_x))`, which is `max 1 ⌊width * scaleX⌋` since the
scale factor is nonnegative; in particular the width is at least 1 pixel,
so a zero-width resize is never requested. -/
theorem C10_min_width (w : Nat) (direction : Int) (progress : ℚ) :
    1 ≤ flip_new_width w (flip_scale_x direction progress)
    ∧ flip_new_width w (flip_scale_x direction progress)
        = max 1 ⌊(w : ℚ) * flip_scale_x direction progress⌋ := by
  obtain ⟨h1, h2⟩ := flip_new_width_eq w _ (flip_scale_x_nonneg direction progress)
  exact ⟨h2, h1⟩

/-- In single-page mode, a fresh animated navigation to a new in-range
target runs the first tick and leaves the viewer mid-transition. -/
lemma go_animated_single_run (s : ViewerState) (index direction : Int)
    (hdoc : docTruthy s = true) (hanim : s.is_animating = false)
    (hdual : s.dual_page_mode = false)
    (hne : max 0 (min ((s.page_count : Int) - 1) index) ≠ s.page_index) :
    _go_animated s index direction
      = { s with
          is_animating := true
          animation_direction := direction
          animation_progress := 0 + 3/20
          target_page_index := max 0 (min ((s.page_count : Int) - 1) index) } := by
  unfold _go_animated _start_flip_animation
  rw [if_neg (by simp [hdoc, hanim]), if_neg (by simp [hdual]), if_neg hne]
  exact tick_eval _ 0 rfl (by norm_num)

/-- C1 counterexample: open a 10-page document, enable dual-page mode, then
jump to page index 7 (the slider path `_on_scale`/`_go`).  The stored page
index becomes 7, which is odd — `_go` never applies the even-alignment
adjustment, so the claimed invariant fails on the jumpTo path. -/
theorem C1_counterexample :
    (_toggle_dual_page (_load (some (Doc.mk 10)) initState).1).dual_page_mode = true
    ∧ (_go (_toggle_dual_page (_load (some (Doc.mk 10)) initState).1) 7).page_index = 7
    ∧ (_go (_toggle_dual_page (_load (some (Doc.mk 10)) initState).1) 7).page_index % 2 = 1 := by
  refine ⟨rfl, by decide, by decide⟩

/-- C1 (amended): in dual-page mode the *animated* navigation path always
targets an even index no larger than the clamped request (or leaves the
state untouched when the adjusted target equals the current page), but the
instant `jumpTo` path (`_go`, also reached from the slider via `_on_scale`)
only clamps to `[0, pageCount-1]` and performs no even alignment, so it can
store an odd index. -/
theorem C1_dual_alignment :
    (∀ (s : ViewerState) (index direction : Int),
        s.dual_page_mode = true → s.is_animating = false → docTruthy s = true →
        ((_go_animated s index direction).target_page_index % 2 = 0
            ∧ (_go_animated s index direction).target_page_index
                ≤ max 0 (min ((s.page_count : Int) - 1) index))
          ∨ _go_animated s index direction = s)
    ∧ (∀ (s : ViewerState) (index : Int), docTruthy s = true →
        (_go s index).page_index = med3Int 0 index ((s.page_count : Int) - 1))
    ∧ (∀ (s : ViewerState) (v : ℚ), _on_scale s false v = _go s (pyInt v - 1)) := by
  refine ⟨?_, ?_, ?_⟩
  · intro s index direction hdual hanim hdoc
    have hc : ¬(¬(docTruthy s = true) ∨ s.is_animating = true) := by
      simp [hdoc, hanim]
    by_cases heq : dualAlignIndex s.page_count index = s.page_index
    · right
      unfold _go_animated _start_flip_animation
      rw [if_neg hc, if_pos hdual, if_pos heq]
    · left
      have hred : (_go_animated s index direction).target_page_index
          = dualAlignIndex s.page_count index := by
        unfold _go_animated _start_flip_animation
        rw [if_neg hc, if_pos hdual, if_neg heq, tick_target]
      rw [hred]
      exact dualAlignIndex_even s.page_count index
  · intro s index hdoc
    unfold _go _set_page
    rw [if_pos hdoc]
  · intro s v
    rfl

theorem C1_dual_alignment_witness :
    (((_go_animated sampleDualState 7 1).target_page_index % 2 = 0
        ∧ (_go_animated sampleDualState 7 1).target_page_index
            ≤ max 0 (min ((sampleDualState.page_count : Int) - 1) 7))
      ∨ _go_animated sampleDualState 7 1 = sampleDualState)
    ∧ (_go sampleDualState 7).page_index
        = med3Int 0 7 ((sampleDualState.page_count : Int) - 1) :=
  ⟨C1_dual_alignment.1 sampleDualState 7 1 rfl rfl rfl,
   C1_dual_alignment.2.1 sampleDualState 7 rfl⟩

/-- C4 counterexample: open a 10-page document and start an animated
navigation to page 5.  While the transition is running
(`is_animating = true`, page index still 0), a direct page selection
`_go 3` (the slider path) immediately changes the stored page index to 3 —
it is not ignored, contrary to the claim that every incoming navigation
request is ignored while a transition runs. -/
theorem C4_counterexample :
    (_go_animated (_load (some (Doc.mk 10)) initState).1 5 1).is_animating = true
    ∧ (_go_animated (_load (some (Doc.mk 10)) initState).1 5 1).page_index = 0
    ∧ (_go_animated (_load (some (Doc.mk 10)) initState).1 5 1).target_page_index = 5
    ∧ (_go (_go_animated (_load (some (Doc.mk 10)) initState).1 5 1) 3).page_index = 3
    ∧ (_go (_go_animated (_load (some (Doc.mk 10)) initState).1 5 1) 3).is_animating = true := by
  have e := go_animated_single_run ((_load (some (Doc.mk 10)) initState).1) 5 1
    rfl rfl rfl (by decide)
  rw [e]
  refine ⟨rfl, rfl, by decide, by decide, by decide⟩

/-- C4 (amended): while a transition is running, the *animated* navigation
entry point ignores every request, but the direct page-selection path
(`_go`) is not guarded by `is_animating`; it does leave the transition's
target and running flag untouched, yet (as the counterexample shows) it
changes the stored page index immediately. -/
theorem C4_running_requests :
    (∀ (s : ViewerState) (index direction : Int), s.is_animating = true →
        _go_animated s index direction = s)
    ∧ (∀ (s : ViewerState) (index : Int),
        (_go s index).target_page_index = s.target_page_index
        ∧ (_go s index).is_animating = s.is_animating) := by
  constructor
  · intro s index direction h
    unfold _go_animated
    rw [if_pos (Or.inr h)]
  · intro s index
    unfold _go _set_page
    split <;> exact ⟨rfl, rfl⟩

theorem C4_running_requests_witness :
    _go_animated sampleRunningState 3 1 = sampleRunningState :=
  C4_running_requests.1 sampleRunningState 3 1 rfl

/-- C5: from progress 0, six ticks leave the transition running at progress
0.90 with the page index untouched; the seventh tick clamps the progress to
1.0, stores the target index as the page index and clears the running
flag. -/
theorem C5_seven_ticks (s : ViewerState)
    (hp : s.animation_progress = 0) (ha : s.is_animating = true) :
    ((_animate_flip_step^[6] s).animation_progress = 9/10
      ∧ (_animate_flip_step^[6] s).is_animating = true
      ∧ (_animate_flip_step^[6] s).page_index = s.page_index)
    ∧ ((_animate_flip_step^[7] s).animation_progress = 1
      ∧ (_animate_flip_step^[7] s).is_animating = false
      ∧ (_animate_flip_step^[7] s).page_index = s.target_page_index) := by
  have e1 : _animate_flip_step s = { s with animation_progress := 0 + 3/20 } :=
    tick_eval s 0 hp (by norm_num)
  have e2 : _animate_flip_step { s with animation_progress := 0 + 3/20 }
      = { s with animation_progress := 0 + 3/20 + 3/20 } :=
    tick_eval _ (0 + 3/20) rfl (by norm_num)
  have e3 : _animate_flip_step { s with animation_progress := 0 + 3/20 + 3/20 }
      = { s with animation_progress := 0 + 3/20 + 3/20 + 3/20 } :=
    tick_eval _ (0 + 3/20 + 3/20) rfl (by norm_num)
  have e4 : _animate_flip_step { s with animation_progress := 0 + 3/20 + 3/20 + 3/20 }
      = { s with animation_progress := 0 + 3/20 + 3/20 + 3/20 + 3/20 } :=
    tick_eval _ (0 + 3/20 + 3/20 + 3/20) rfl (by norm_num)
  have e5 : _animate_flip_step
        { s with animation_progress := 0 + 3/20 + 3/20 + 3/20 + 3/20 }
      = { s with animation_progress := 0 + 3/20 + 3/20 + 3/20 + 3/20 + 3/20 } :=
    tick_eval _ (0 + 3/20 + 3/20 + 3/20 + 3/20) rfl (by norm_num)
  have e6 : _animate_flip_step
        { s with animation_progress := 0 + 3/20 + 3/20 + 3/20 + 3/20 + 3/20 }
      = { s with
          animation_progress := 0 + 3/20 + 3/20 + 3/20 + 3/20 + 3/20 + 3/20 } :=
    tick_eval _ (0 + 3/20 + 3/20 + 3/20 + 3/20 + 3/20) rfl (by norm_num)
  have e7 : _animate_flip_step
        { s with
            animation_progress := 0 + 3/20 + 3/20 + 3/20 + 3/20 + 3/20 + 3/20 }
      = { s with
          animation_progress := 1
          page_index := s.target_page_index
          is_animating := false } :=
    tick_eval_done _ (0 + 3/20 + 3/20 + 3/20 + 3/20 + 3/20 + 3/20) rfl (by norm_num)
  have E6 : _animate_flip_step^[6] s
      = { s with
          animation_progress := 0 + 3/20 + 3/20 + 3/20 + 3/20 + 3/20 + 3/20 } := by
    show _animate_flip_step (_animate_flip_step (_animate_flip_step
      (_animate_flip_step (_animate_flip_step (_animate_flip_step s))))) = _
    rw [e1, e2, e3, e4, e5, e6]
  have E7 : _animate_flip_step^[7] s
      = { s with
          animation_progress := 1
          page_index := s.target_page_index
          is_animating := false } := by
    show _animate_flip_step (_animate_flip_step (_animate_flip_step
      (_animate_flip_step (_animate_flip_step (_animate_flip_step
        (_animate_flip_step s)))))) = _
    rw [e1, e2, e3, e4, e5, e6, e7]
  rw [E6, E7]
  exact ⟨⟨by norm_num, ha, rfl⟩, rfl, rfl, rfl⟩

theorem C5_seven_ticks_witness :
    ((_animate_flip_step^[6] sampleAnimState).animation_progress = 9/10
      ∧ (_animate_flip_step^[6] sampleAnimState).is_animating = true
      ∧ (_animate_flip_step^[6] sampleAnimState).page_index
          = sampleAnimState.page_index)
    ∧ ((_animate_flip_step^[7] sampleAnimState).animation_progress = 1
      ∧ (_animate_flip_step^[7] sampleAnimState).is_animating = false
      ∧ (_animate_flip_step^[7] sampleAnimState).page_index
          = sampleAnimState.target_page_index) :=
  C5_seven_ticks sampleAnimState rfl rfl

/-- C6 counterexample: on the tick with progress 0.15 of a forward
transition, `scale_x = 0.85`; for a composed width of 101 pixels the code
resizes to `max(1, int(101 * 0.85)) = 85`, while the claimed formula
`round(101 * 0.85) = round(85.85)` gives 86 — the code truncates, it does
not round. -/
theorem C6_counterexample :
    flip_scale_x 1 (3/20) = 17/20
    ∧ flip_new_width 101 (flip_scale_x 1 (3/20)) = 85
    ∧ round ((101 : ℚ) * flip_scale_x 1 (3/20)) = 86 := by
  have h : flip_scale_x 1 (3/20) = 17/20 := by
    norm_num [flip_scale_x, abs, max_def]
  refine ⟨h, ?_, ?_⟩
  · rw [h]
    norm_num [flip_new_width, pyInt]
  · rw [h]
    norm_num [round_eq]

/-- C6 (amended): for a tick at progress `p ∈ [0, 1]`, the horizontal scale
is `max(0.1, 1-p)` forward and `max(0.1, p)` backward; the page rasterized
is the source while `p < 0.5` and the target once `p ≥ 0.5`; and the
composed image is resized to width `max(1, ⌊originalWidth * scaleX⌋)`
(truncation with a 1-pixel floor, not rounding). -/
theorem C6_flip_frame (direction : Int) (p : ℚ) (s : ViewerState) (w : Nat)
    (hp0 : 0 ≤ p) (hp1 : p ≤ 1) :
    (0 < direction → flip_scale_x direction p = max (1/10) (1 - p))
    ∧ (direction ≤ 0 → flip_scale_x direction p = max (1/10) p)
    ∧ (s.animation_progress < 1/2 → flip_render_idx s = s.page_index)
    ∧ (1/2 ≤ s.animation_progress → flip_render_idx s = s.target_page_index)
    ∧ flip_new_width w (flip_scale_x direction p)
        = max 1 ⌊(w : ℚ) * flip_scale_x direction p⌋ := by
  refine ⟨?_, ?_, ?_, ?_, ?_⟩
  · intro hd
    unfold flip_scale_x
    rw [if_pos hd, abs_of_nonneg (by linarith)]
  · intro hd
    unfold flip_scale_x
    rw [if_neg (not_lt.mpr hd), abs_of_nonneg hp0]
  · intro h
    unfold flip_render_idx
    rw [if_pos h]
  · intro h
    unfold flip_render_idx
    rw [if_neg (not_lt.mpr h)]
  · exact (flip_new_width_eq w _ (flip_scale_x_nonneg direction p)).1

theorem C6_flip_frame_witness :
    (0 < (1 : Int) → flip_scale_x 1 (3/10) = max (1/10) (1 - 3/10))
    ∧ ((1 : Int) ≤ 0 → flip_scale_x 1 (3/10) = max (1/10) (3/10))
    ∧ (sampleFlipState.animation_progress < 1/2 →
        flip_render_idx sampleFlipState = sampleFlipState.page_index)
    ∧ (1/2 ≤ sampleFlipState.animation_progress →
        flip_render_idx sampleFlipState = sampleFlipState.target_page_index)
    ∧ flip_new_width 100 (flip_scale_x 1 (3/10))
        = max 1 ⌊(100 : ℚ) * flip_scale_x 1 (3/10)⌋ :=
  C6_flip_frame 1 (3/10) sampleFlipState 100 (by norm_num) (by norm_num)

/-- C9 counterexample: opening a zero-page document succeeds and leaves
zoom 1.0 and fit mode on; a subsequent `zoomIn` changes the stored zoom to
1.25 and clears the fit-mode flag — zoom is not a no-op on the observable
state, contrary to the claim. -/
theorem C9_counterexample :
    sampleEmptyState.page_count = 0
    ∧ (_load (some (Doc.mk 0)) initState).2 = false
    ∧ sampleEmptyState.zoom = 1
    ∧ sampleEmptyState.fit_mode = true
    ∧ (_zoom_in sampleEmptyState).zoom = 5/4
    ∧ (_zoom_in sampleEmptyState).fit_mode = false := by
  have hz : sampleEmptyState.zoom = 1 := rfl
  refine ⟨rfl, rfl, rfl, rfl, ?_, rfl⟩
  show med3 (1/5) (sampleEmptyState.zoom * (5/4)) 6 = 5/4
  rw [hz]
  norm_num [med3, min_def, max_def]

/-- C9 (amended): with a falsy document (none open, or the open document
has zero pages) nothing crashes: navigation (`_go`, `_go_animated`) leaves
the state unchanged and `_render` rasterizes nothing; but `zoomIn`/`zoomOut`
still clear the fit-mode flag and multiply/divide the stored zoom (they are
not guarded by the document check), leaving the page index unchanged. -/
theorem C9_zero_page_doc (s : ViewerState) (index direction : Int)
    (h : docTruthy s = false) :
    _go s index = s
    ∧ _go_animated s index direction = s
    ∧ _render s = none
    ∧ (_zoom_in s).fit_mode = false
    ∧ (_zoom_in s).zoom = max (1/5) (min (s.zoom * (5/4)) 6)
    ∧ (_zoom_in s).page_index = s.page_index
    ∧ (_zoom_out s).fit_mode = false
    ∧ (_zoom_out s).zoom = max (1/5) (min (s.zoom / (5/4)) 6)
    ∧ (_zoom_out s).page_index = s.page_index := by
  refine ⟨?_, ?_, ?_, rfl, med3_clamp _ _ _ (by norm_num), rfl, rfl,
    med3_clamp _ _ _ (by norm_num), rfl⟩
  · unfold _go
    rw [if_neg (by simp [h])]
  · unfold _go_animated
    rw [if_pos (Or.inl (by simp [h]))]
  · unfold _render
    rw [if_neg (by simp [h])]

theorem C9_zero_page_doc_witness :
    _go sampleEmptyState 3 = sampleEmptyState
    ∧ _go_animated sampleEmptyState 3 1 = sampleEmptyState
    ∧ _render sampleEmptyState = none
    ∧ (_zoom_in sampleEmptyState).fit_mode = false
    ∧ (_zoom_in sampleEmptyState).zoom
        = max (1/5) (min (sampleEmptyState.zoom * (5/4)) 6)
    ∧ (_zoom_in sampleEmptyState).page_index = sampleEmptyState.page_index
    ∧ (_zoom_out sampleEmptyState).fit_mode = false
    ∧ (_zoom_out sampleEmptyState).zoom
        = max (1/5) (min (sampleEmptyState.zoom / (5/4)) 6)
    ∧ (_zoom_out sampleEmptyState).page_index = sampleEmptyState.page_index :=
  C9_zero_page_doc sampleEmptyState 3 1 rfl
